import Mathlib

/-!
Shallow embedding of the eBPF TLS-capture programs of this repository:
`src/kern/openssl_kern.c` and `src/kern/nspr_kern.c`.

Modelling conventions:
* Pointers and unsigned machine integers are `Nat`; signed C `int` values are
  `Int` obtained by reinterpreting the low 32 bits of the raw register value.
* Foreign (traced-process) memory is a bundle of partial maps, one per object
  kind the programs read.  A `bpf_probe_read` / `bpf_probe_read_user` call is
  modelled with the kernel helper's documented semantics: on success the bytes
  are returned, on failure the destination is zero-filled (the helper memsets
  the destination to 0 before returning an error).  The C code never inspects
  the helper's return value, which the embedding reflects by using `Option.getD`
  with the all-zero value.
* The BPF hash maps keyed by `current_pid_tgid` become `Nat → Option _`
  functions; `bpf_map_update_elem` with `BPF_ANY` overwrites, and
  `bpf_map_delete_elem` removes.
* The per-CPU scratch slot (`data_buffer_heap`) is a one-element array map, so
  the lookup at index 0 always succeeds; the C `NULL` check is defensive and
  `create_ssl_data_event` is modelled as total.
* Emission via `bpf_perf_event_output` is modelled as producing the record; a
  probe returns the list of records it emitted (always of length ≤ 1).
-/

namespace ECapture

/-- Modelled from the spec: `MAX_DATA_SIZE_OPENSSL` is defined in a header
(`common.h` / `ecapture.h`) that is not under `src/`.  The spec fixes only that
the payload capacity is a fixed maximum; the masking form of the clamp in
`process_SSL_data` (whose comment calls it a max/min function) requires the
capacity to be a power of two, and the repository's headers define it as
4 KiB. -/
def MAX_DATA_SIZE_OPENSSL : Int := 4096

/-- Modelled from the spec: `SA_DATA_LEN` comes from a header not under `src/`;
it is the size of the `sa_data` region of a C `struct sockaddr`, 14 bytes. -/
def SA_DATA_LEN : Nat := 14

/-- Modelled from the spec: `AF_INET` comes from `vmlinux.h`, not under `src/`;
it is the IPv4 address family, value 2. -/
def AF_INET : Nat := 2

/-- Direction tag of a capture record (`enum ssl_data_event_type`). -/
inductive ssl_data_event_type where
  | kSSLRead
  | kSSLWrite
  deriving DecidableEq, Repr

/-- The `invalidFD` sentinel: the unknown-descriptor value, 0. -/
def invalidFD : Nat := 0

/-- OpenSSL `struct BIO` as laid out in `openssl_kern.c` (pinned 1.1.1 layout).
Pointer fields are addresses (`Nat`); `int` fields are `Int`.  Only `num`
(the underlying socket descriptor) is consumed by the programs. -/
structure BIO where
  method : Nat
  callback : Nat
  callback_ex : Nat
  cb_arg : Nat
  init : Int
  shutdown : Int
  flags : Int
  retry_reason : Int
  num : Int
  deriving DecidableEq, Repr

/-- OpenSSL `struct ssl_st` as laid out in `openssl_kern.c`: version, method
pointer, then the read-path and write-path `BIO` pointers. -/
structure ssl_st where
  version : Int
  method : Nat
  rbio : Nat
  wbio : Nat
  deriving DecidableEq, Repr

/-- A C `struct sockaddr` as read by `probe_connect`: the address family and
the raw `SA_DATA_LEN`-byte `sa_data` region. -/
structure sockaddr where
  sa_family : Nat
  sa_data : List Nat
  deriving DecidableEq, Repr

/-- Foreign memory of the traced process: partial maps from addresses to the
object kinds the programs read, plus a raw byte view for payload copies
(`bytes a n` is the `n`-byte region at address `a`, if readable). -/
structure Memory where
  sslObjs : Nat → Option ssl_st
  bioObjs : Nat → Option BIO
  sockaddrs : Nat → Option sockaddr
  bytes : Nat → Nat → Option (List Nat)

/-- The all-zero `ssl_st`, the contents `bpf_probe_read_user` leaves in the
destination when the read faults. -/
def ssl_st.zero : ssl_st := ⟨0, 0, 0, 0⟩

/-- The all-zero `BIO`, the contents `bpf_probe_read_user` leaves in the
destination when the read faults.  Its `num` field is 0 = `invalidFD`. -/
def BIO.zero : BIO := ⟨0, 0, 0, 0, 0, 0, 0, 0, 0⟩

/-- `bpf_probe_read_user` of a `struct ssl_st`: zero-filled on failure. -/
def probe_read_ssl_st (mem : Memory) (addr : Nat) : ssl_st :=
  (mem.sslObjs addr).getD ssl_st.zero

/-- `bpf_probe_read_user` of a `struct BIO`: zero-filled on failure. -/
def probe_read_bio (mem : Memory) (addr : Nat) : BIO :=
  (mem.bioObjs addr).getD BIO.zero

/-- `bpf_probe_read` of `n` payload bytes at `addr`: the bytes on success, a
zero-filled buffer on failure (the helper's return value is ignored by the
callers in this repository). -/
def bpf_probe_read_bytes (mem : Memory) (n addr : Nat) : List Nat :=
  (mem.bytes addr n).getD (List.replicate n 0)

/-- Reinterpret the low 32 bits of a raw (unsigned) register value as a signed
32-bit integer, as the C cast `(int)PT_REGS_RC(ctx)` does. -/
def toS32 (n : Nat) : Int :=
  if n % 2 ^ 32 < 2 ^ 31 then ((n % 2 ^ 32 : Nat) : Int)
  else ((n % 2 ^ 32 : Nat) : Int) - 2 ^ 32

/-- Truncate a signed C `int` to an unsigned 32-bit value, as the C assignment
`u32 fd = bio.num` does. -/
def toU32 (i : Int) : Nat := (i % 2 ^ 32).toNat

/-- Capture record (`struct ssl_data_event_t`, OpenSSL flavour, with `fd`). -/
structure ssl_data_event_t where
  type : ssl_data_event_type
  timestamp_ns : Nat
  pid : Nat
  tid : Nat
  data : List Nat
  data_len : Int
  comm : String
  fd : Nat
  deriving DecidableEq, Repr

/-- Connection record (`struct connect_event_t`). -/
structure connect_event_t where
  timestamp_ns : Nat
  pid : Nat
  tid : Nat
  fd : Nat
  sa_data : List Nat
  comm : String
  deriving DecidableEq, Repr

/-- Pending call context (`struct active_ssl_buf`): the descriptor resolved at
entry and the buffer-pointer argument. -/
structure active_ssl_buf where
  fd : Nat
  buf : Nat
  deriving DecidableEq, Repr

/-- The per-direction BPF hash map keyed by `current_pid_tgid`
(`active_ssl_read_args_map` / `active_ssl_write_args_map`). -/
abbrev SslArgsMap := Nat → Option active_ssl_buf

/-- `bpf_map_update_elem` with `BPF_ANY`: insert or overwrite. -/
def bpf_map_update_elem (m : SslArgsMap) (k : Nat) (v : active_ssl_buf) : SslArgsMap :=
  fun k2 => if k2 = k then some v else m k2

/-- `bpf_map_delete_elem`: remove the entry for `k`, if any. -/
def bpf_map_delete_elem (m : SslArgsMap) (k : Nat) : SslArgsMap :=
  fun k2 => if k2 = k then none else m k2

/-- `create_ssl_data_event`: grab the per-CPU scratch slot and stamp timestamp,
pid (high 32 bits of `current_pid_tgid`), tid (low 32 bits) and the
`invalidFD` sentinel.  The slot comes from a one-entry per-CPU array map, so
the lookup at index 0 always succeeds and the function is total; the fields not
assigned here model the slot's default contents and are overwritten by the
caller before emission. -/
def create_ssl_data_event (ts : Nat) (current_pid_tgid : Nat) : ssl_data_event_t :=
  { type := .kSSLRead,
    timestamp_ns := ts,
    pid := current_pid_tgid >>> 32,
    tid := current_pid_tgid &&& 0xffffffff,
    data := [],
    data_len := 0,
    comm := "",
    fd := invalidFD }

/-- The clamp in `process_SSL_data`:
`(len < MAX_DATA_SIZE_OPENSSL ? (len & (MAX_DATA_SIZE_OPENSSL - 1)) : MAX_DATA_SIZE_OPENSSL)`.
It is only evaluated on non-negative `len`, where the C bitwise-and on `int`
agrees with `Nat` bitwise-and on `len.toNat`. -/
def clamp_data_len (len : Int) : Int :=
  if len < MAX_DATA_SIZE_OPENSSL
  then ((len.toNat &&& (MAX_DATA_SIZE_OPENSSL.toNat - 1) : Nat) : Int)
  else MAX_DATA_SIZE_OPENSSL

/-- `process_SSL_data` of `openssl_kern.c`: interpret the return register as a
signed `int`; a negative value suppresses emission; otherwise build the record
in the scratch slot (direction, descriptor, clamped length, payload copy,
process name) and emit it. -/
def process_SSL_data (mem : Memory) (ts retval id : Nat)
    (type : ssl_data_event_type) (buf fd : Nat) (comm : String) :
    Option ssl_data_event_t :=
  let len : Int := toS32 retval
  if len < 0 then none
  else
    let event := create_ssl_data_event ts id
    some { event with
            type := type,
            fd := fd,
            data_len := clamp_data_len len,
            data := bpf_probe_read_bytes mem (clamp_data_len len).toNat buf,
            comm := comm }

/-- `probe_entry_SSL_write`: after the pid filter, resolve the descriptor as
`ssl->wbio->num` by two best-effort foreign reads and store the context
(descriptor, buffer pointer) under `current_pid_tgid`. -/
def probe_entry_SSL_write (target_pid : Nat) (mem : Memory)
    (current_pid_tgid ssl buf : Nat) (m : SslArgsMap) : SslArgsMap :=
  let pid := current_pid_tgid >>> 32
  if target_pid ≠ 0 ∧ target_pid ≠ pid then m
  else
    let ssl_info := probe_read_ssl_st mem ssl
    let bio_w := probe_read_bio mem ssl_info.wbio
    let fd := toU32 bio_w.num
    bpf_map_update_elem m current_pid_tgid ⟨fd, buf⟩

/-- `probe_entry_SSL_read`: same as the write entry probe but resolving the
descriptor through the read-path transport, `ssl->rbio->num`. -/
def probe_entry_SSL_read (target_pid : Nat) (mem : Memory)
    (current_pid_tgid ssl buf : Nat) (m : SslArgsMap) : SslArgsMap :=
  let pid := current_pid_tgid >>> 32
  if target_pid ≠ 0 ∧ target_pid ≠ pid then m
  else
    let ssl_info := probe_read_ssl_st mem ssl
    let bio_r := probe_read_bio mem ssl_info.rbio
    let fd := toU32 bio_r.num
    bpf_map_update_elem m current_pid_tgid ⟨fd, buf⟩

/-- Result of a return probe: the updated context map and the list of capture
records it emitted. -/
structure RetResult where
  map : SslArgsMap
  events : List ssl_data_event_t

/-- `probe_ret_SSL_write`: after the pid filter, look up the pending context
for this thread; if present, run `process_SSL_data`; then delete the entry
unconditionally. -/
def probe_ret_SSL_write (target_pid : Nat) (mem : Memory)
    (ts current_pid_tgid retval : Nat) (comm : String) (m : SslArgsMap) : RetResult :=
  let pid := current_pid_tgid >>> 32
  if target_pid ≠ 0 ∧ target_pid ≠ pid then ⟨m, []⟩
  else
    let events :=
      match m current_pid_tgid with
      | some a => (process_SSL_data mem ts retval current_pid_tgid .kSSLWrite a.buf a.fd comm).toList
      | none => []
    ⟨bpf_map_delete_elem m current_pid_tgid, events⟩

/-- `probe_ret_SSL_read`: the read-direction twin of `probe_ret_SSL_write`. -/
def probe_ret_SSL_read (target_pid : Nat) (mem : Memory)
    (ts current_pid_tgid retval : Nat) (comm : String) (m : SslArgsMap) : RetResult :=
  let pid := current_pid_tgid >>> 32
  if target_pid ≠ 0 ∧ target_pid ≠ pid then ⟨m, []⟩
  else
    let events :=
      match m current_pid_tgid with
      | some a => (process_SSL_data mem ts retval current_pid_tgid .kSSLRead a.buf a.fd comm).toList
      | none => []
    ⟨bpf_map_delete_elem m current_pid_tgid, events⟩

/-- `probe_connect`: at connect entry (no return value exists yet), after the
pid filter: bail out on a null `sockaddr` pointer; read the address family
(zero on a failed read); emit nothing unless it is `AF_INET`; otherwise emit
exactly one connection record carrying the raw `sa_data` bytes.  The C code
assigns the 64-bit `current_pid_tgid` to the 32-bit `tid` field, hence the
low-32-bit truncation. -/
def probe_connect (target_pid : Nat) (mem : Memory)
    (ts current_pid_tgid fd saddr : Nat) (comm : String) : List connect_event_t :=
  let pid := current_pid_tgid >>> 32
  if target_pid ≠ 0 ∧ target_pid ≠ pid then []
  else if saddr = 0 then []
  else
    let address_family := ((mem.sockaddrs saddr).map sockaddr.sa_family).getD 0
    if address_family ≠ AF_INET then []
    else
      [{ timestamp_ns := ts,
         pid := pid,
         tid := current_pid_tgid &&& 0xffffffff,
         fd := fd,
         sa_data := ((mem.sockaddrs saddr).map sockaddr.sa_data).getD (List.replicate SA_DATA_LEN 0),
         comm := comm }]

namespace nspr

/-- Capture record of `nspr_kern.c` (`struct ssl_data_event_t` there): same as
the OpenSSL one but with no `fd` field. -/
structure ssl_data_event_t where
  type : ssl_data_event_type
  timestamp_ns : Nat
  pid : Nat
  tid : Nat
  data : List Nat
  data_len : Int
  comm : String
  deriving DecidableEq, Repr

/-- `create_ssl_data_event` of `nspr_kern.c`: stamp timestamp, pid, tid; no
descriptor field exists on this path. -/
def create_ssl_data_event (ts : Nat) (current_pid_tgid : Nat) : ssl_data_event_t :=
  { type := .kSSLRead,
    timestamp_ns := ts,
    pid := current_pid_tgid >>> 32,
    tid := current_pid_tgid &&& 0xffffffff,
    data := [],
    data_len := 0,
    comm := "" }

/-- `process_SSL_data` of `nspr_kern.c`: identical to the OpenSSL one except
that no descriptor is recorded. -/
def process_SSL_data (mem : Memory) (ts retval id : Nat)
    (type : ssl_data_event_type) (buf : Nat) (comm : String) :
    Option ssl_data_event_t :=
  let len : Int := toS32 retval
  if len < 0 then none
  else
    let event := create_ssl_data_event ts id
    some { event with
            type := type,
            data_len := clamp_data_len len,
            data := bpf_probe_read_bytes mem (clamp_data_len len).toNat buf,
            comm := comm }

/-- The NSPR-path hash maps store just the buffer pointer (`const char*`). -/
abbrev NsprArgsMap := Nat → Option Nat

/-- `probe_entry_SSL_write` of `nspr_kern.c` (uprobe on `PR_Write`): after the
pid filter, store the buffer-pointer argument under `current_pid_tgid`. -/
def probe_entry_SSL_write (target_pid current_pid_tgid buf : Nat)
    (m : NsprArgsMap) : NsprArgsMap :=
  let pid := current_pid_tgid >>> 32
  if target_pid ≠ 0 ∧ target_pid ≠ pid then m
  else fun k2 => if k2 = current_pid_tgid then some buf else m k2

/-- Result of an NSPR return probe. -/
structure RetResult where
  map : NsprArgsMap
  events : List ssl_data_event_t

/-- `probe_ret_SSL_read` of `nspr_kern.c` (uretprobe on `PR_Read`): look up
the pending buffer pointer; if present, run `process_SSL_data`; then delete
the entry unconditionally. -/
def probe_ret_SSL_read (target_pid : Nat) (mem : Memory)
    (ts current_pid_tgid retval : Nat) (comm : String) (m : NsprArgsMap) : RetResult :=
  let pid := current_pid_tgid >>> 32
  if target_pid ≠ 0 ∧ target_pid ≠ pid then ⟨m, []⟩
  else
    let events :=
      match m current_pid_tgid with
      | some buf => (process_SSL_data mem ts retval current_pid_tgid .kSSLRead buf comm).toList
      | none => []
    ⟨fun k2 => if k2 = current_pid_tgid then none else m k2, events⟩

end nspr

/-!
Shared lemmas about the embedding, used by several claim theorems below.
-/

/-- The verifier-friendly mask trick computes a true minimum: on non-negative
lengths, `clamp_data_len` is `min len MAX_DATA_SIZE_OPENSSL`. -/
lemma clamp_data_len_eq_min (len : Int) (h : 0 ≤ len) :
    clamp_data_len len = min len MAX_DATA_SIZE_OPENSSL := by
  unfold clamp_data_len MAX_DATA_SIZE_OPENSSL
  by_cases hlt : len < (4096 : Int)
  · have hmask : len.toNat &&& ((4096 : Int).toNat - 1) = len.toNat % 2 ^ 12 := by
      have h2 := Nat.and_pow_two_sub_one_eq_mod len.toNat 12
      norm_num at h2 ⊢
      exact h2
    rw [if_pos hlt, hmask]
    have hsm : len.toNat % 2 ^ 12 = len.toNat := Nat.mod_eq_of_lt (by omega)
    rw [hsm, min_eq_left (le_of_lt hlt)]
    omega
  · rw [if_neg hlt, min_eq_right (by omega)]

/-- Unfolding of `process_SSL_data` in the non-negative case: the record built
in the scratch slot, with every field explicit. -/
lemma process_SSL_data_eq_some (mem : Memory) (ts retval id : Nat)
    (ty : ssl_data_event_type) (buf fd : Nat) (c : String) (h : 0 ≤ toS32 retval) :
    process_SSL_data mem ts retval id ty buf fd c =
      some { type := ty,
             timestamp_ns := ts,
             pid := id >>> 32,
             tid := id &&& 0xffffffff,
             data := bpf_probe_read_bytes mem (clamp_data_len (toS32 retval)).toNat buf,
             data_len := clamp_data_len (toS32 retval),
             comm := c,
             fd := fd } := by
  unfold process_SSL_data create_ssl_data_event
  rw [if_neg (not_lt.mpr h)]

/-- Unfolding of `process_SSL_data` in the negative case: no record. -/
lemma process_SSL_data_eq_none (mem : Memory) (ts retval id : Nat)
    (ty : ssl_data_event_type) (buf fd : Nat) (c : String) (h : toS32 retval < 0) :
    process_SSL_data mem ts retval id ty buf fd c = none := by
  unfold process_SSL_data
  rw [if_pos h]

/-- The pid filter condition is false whenever the probe is configured for all
pids or for the calling process's pid. -/
lemma pid_filter_pass {target_pid k : Nat} (h : target_pid = 0 ∨ target_pid = k >>> 32) :
    ¬ (target_pid ≠ 0 ∧ target_pid ≠ k >>> 32) := by
  tauto

/-- Unfolding of `probe_ret_SSL_write` when the pid filter passes. -/
lemma probe_ret_SSL_write_pass (target_pid : Nat) (mem : Memory)
    (ts k retval : Nat) (c : String) (m : SslArgsMap)
    (h : target_pid = 0 ∨ target_pid = k >>> 32) :
    probe_ret_SSL_write target_pid mem ts k retval c m =
      ⟨bpf_map_delete_elem m k,
       match m k with
       | some a => (process_SSL_data mem ts retval k .kSSLWrite a.buf a.fd c).toList
       | none => []⟩ := by
  unfold probe_ret_SSL_write
  rw [if_neg (pid_filter_pass h)]

/-- Unfolding of `probe_ret_SSL_read` when the pid filter passes. -/
lemma probe_ret_SSL_read_pass (target_pid : Nat) (mem : Memory)
    (ts k retval : Nat) (c : String) (m : SslArgsMap)
    (h : target_pid = 0 ∨ target_pid = k >>> 32) :
    probe_ret_SSL_read target_pid mem ts k retval c m =
      ⟨bpf_map_delete_elem m k,
       match m k with
       | some a => (process_SSL_data mem ts retval k .kSSLRead a.buf a.fd c).toList
       | none => []⟩ := by
  unfold probe_ret_SSL_read
  rw [if_neg (pid_filter_pass h)]

/-- Unfolding of `probe_entry_SSL_write` when the pid filter passes. -/
lemma probe_entry_SSL_write_pass (target_pid : Nat) (mem : Memory)
    (k ssl buf : Nat) (m : SslArgsMap)
    (h : target_pid = 0 ∨ target_pid = k >>> 32) :
    probe_entry_SSL_write target_pid mem k ssl buf m =
      bpf_map_update_elem m k
        ⟨toU32 (probe_read_bio mem (probe_read_ssl_st mem ssl).wbio).num, buf⟩ := by
  unfold probe_entry_SSL_write
  rw [if_neg (pid_filter_pass h)]

/-- Unfolding of `probe_entry_SSL_read` when the pid filter passes. -/
lemma probe_entry_SSL_read_pass (target_pid : Nat) (mem : Memory)
    (k ssl buf : Nat) (m : SslArgsMap)
    (h : target_pid = 0 ∨ target_pid = k >>> 32) :
    probe_entry_SSL_read target_pid mem k ssl buf m =
      bpf_map_update_elem m k
        ⟨toU32 (probe_read_bio mem (probe_read_ssl_st mem ssl).rbio).num, buf⟩ := by
  unfold probe_entry_SSL_read
  rw [if_neg (pid_filter_pass h)]

/-!
Concrete fixtures used by witness and counterexample theorems.
-/

/-- Foreign memory in which every read faults. -/
def memNone : Memory :=
  { sslObjs := fun _ => none,
    bioObjs := fun _ => none,
    sockaddrs := fun _ => none,
    bytes := fun _ _ => none }

/-- Concrete foreign memory: an SSL object at address 100 whose read-path BIO
(address 200) has descriptor 7 and whose write-path BIO (address 300) has
descriptor 8; an `AF_INET` sockaddr at address 400; readable payload bytes at
address 500. -/
def memW : Memory :=
  { sslObjs := fun a => if a = 100 then some ⟨771, 10, 200, 300⟩ else none,
    bioObjs := fun a =>
      if a = 200 then some ⟨0, 0, 0, 0, 1, 0, 0, 0, 7⟩
      else if a = 300 then some ⟨0, 0, 0, 0, 1, 0, 0, 0, 8⟩
      else none,
    sockaddrs := fun a =>
      if a = 400 then some ⟨AF_INET, [1, 2, 3, 4, 5, 6, 7, 8, 9, 10, 11, 12, 13, 14]⟩
      else none,
    bytes := fun a n => if a = 500 then some (List.replicate n 65) else none }

/-- A context map holding one pending write context for thread key 5. -/
def m0 : SslArgsMap := fun k => if k = 5 then some ⟨3, 500⟩ else none

/-- An empty process-name string for concrete instantiations. -/
def comm0 : String := ""

/-!
Claim theorems.
-/

/-- Claim C1: for every completed call with a stored entry context and a
non-negative return count, exactly one capture record is emitted, and its
`data_len` field equals `min return_count MAX_DATA_SIZE_OPENSSL`; in
particular the source's masking expression
`len < MAX ? len & (MAX - 1) : MAX` equals `min len MAX` for every
non-negative `len`. -/
theorem claim_C1 (mem : Memory) (ts retval id : Nat) (ty : ssl_data_event_type)
    (buf fd target_pid : Nat) (c : String) (m : SslArgsMap) (a : active_ssl_buf)
    (h : 0 ≤ toS32 retval)
    (hpass : target_pid = 0 ∨ target_pid = id >>> 32)
    (hctx : m id = some a) :
    (∃ ev, process_SSL_data mem ts retval id ty buf fd c = some ev ∧
        ev.data_len = min (toS32 retval) MAX_DATA_SIZE_OPENSSL) ∧
    (∃ ev, (probe_ret_SSL_write target_pid mem ts id retval c m).events = [ev] ∧
        ev.data_len = min (toS32 retval) MAX_DATA_SIZE_OPENSSL) ∧
    (∀ len : Int, 0 ≤ len →
      (if len < MAX_DATA_SIZE_OPENSSL
       then ((len.toNat &&& (MAX_DATA_SIZE_OPENSSL.toNat - 1) : Nat) : Int)
       else MAX_DATA_SIZE_OPENSSL) = min len MAX_DATA_SIZE_OPENSSL) := by
  refine ⟨⟨_, process_SSL_data_eq_some mem ts retval id ty buf fd c h,
           clamp_data_len_eq_min _ h⟩,
          ⟨{ type := .kSSLWrite, timestamp_ns := ts, pid := id >>> 32,
             tid := id &&& 0xffffffff,
             data := bpf_probe_read_bytes mem (clamp_data_len (toS32 retval)).toNat a.buf,
             data_len := clamp_data_len (toS32 retval), comm := c, fd := a.fd }, ?_,
           clamp_data_len_eq_min _ h⟩,
          fun len hl => clamp_data_len_eq_min len hl⟩
  rw [probe_ret_SSL_write_pass target_pid mem ts id retval c m hpass]
  simp only [hctx]
  rw [process_SSL_data_eq_some mem ts retval id .kSSLWrite a.buf a.fd c h]
  rfl

/-- Witness for C1: the concrete thread key 5 with its pending context in
`m0`, return value 7, capture capacity 4096. -/
theorem claim_C1_witness :
    (∃ ev, process_SSL_data memW 11 7 5 .kSSLWrite 500 3 comm0 = some ev ∧
        ev.data_len = min (toS32 7) MAX_DATA_SIZE_OPENSSL) ∧
    (∃ ev, (probe_ret_SSL_write 0 memW 11 5 7 comm0 m0).events = [ev] ∧
        ev.data_len = min (toS32 7) MAX_DATA_SIZE_OPENSSL) ∧
    (∀ len : Int, 0 ≤ len →
      (if len < MAX_DATA_SIZE_OPENSSL
       then ((len.toNat &&& (MAX_DATA_SIZE_OPENSSL.toNat - 1) : Nat) : Int)
       else MAX_DATA_SIZE_OPENSSL) = min len MAX_DATA_SIZE_OPENSSL) :=
  claim_C1 memW 11 7 5 .kSSLWrite 500 3 0 comm0 m0 ⟨3, 500⟩ (by decide)
    (Or.inl rfl) rfl

/-- Claim C2: on a return interception that passes the pid filter, a capture
record is emitted if and only if a pending context exists for the thread key
and the return value, read as a signed 32-bit integer, is non-negative; in
particular a negative return emits nothing.  Stated for both the write-path
and the read-path return probes. -/
theorem claim_C2 (target_pid : Nat) (mem : Memory) (ts k retval : Nat)
    (c : String) (m : SslArgsMap)
    (hpass : target_pid = 0 ∨ target_pid = k >>> 32) :
    ((probe_ret_SSL_write target_pid mem ts k retval c m).events ≠ [] ↔
        (m k).isSome ∧ 0 ≤ toS32 retval) ∧
    ((probe_ret_SSL_read target_pid mem ts k retval c m).events ≠ [] ↔
        (m k).isSome ∧ 0 ≤ toS32 retval) := by
  constructor
  · rw [probe_ret_SSL_write_pass target_pid mem ts k retval c m hpass]
    rcases hm : m k with _ | a
    · simp
    · simp only [hm]
      by_cases hr : 0 ≤ toS32 retval
      · simp [process_SSL_data_eq_some mem ts retval k .kSSLWrite a.buf a.fd c hr, hr]
      · simp [process_SSL_data_eq_none mem ts retval k .kSSLWrite a.buf a.fd c (by omega), hr]
  · rw [probe_ret_SSL_read_pass target_pid mem ts k retval c m hpass]
    rcases hm : m k with _ | a
    · simp
    · simp only [hm]
      by_cases hr : 0 ≤ toS32 retval
      · simp [process_SSL_data_eq_some mem ts retval k .kSSLRead a.buf a.fd c hr, hr]
      · simp [process_SSL_data_eq_none mem ts retval k .kSSLRead a.buf a.fd c (by omega), hr]

/-- Witness for C2: the concrete thread key 5 with context map `m0` and
return value 7. -/
theorem claim_C2_witness :
    ((probe_ret_SSL_write 0 memW 11 5 7 comm0 m0).events ≠ [] ↔
        (m0 5).isSome ∧ 0 ≤ toS32 7) ∧
    ((probe_ret_SSL_read 0 memW 11 5 7 comm0 m0).events ≠ [] ↔
        (m0 5).isSome ∧ 0 ≤ toS32 7) :=
  claim_C2 0 memW 11 5 7 comm0 m0 (Or.inl rfl)

/-- Counterexample to C3 as stated: with foreign memory in which the payload
copy at the stored buffer address fails, `process_SSL_data` still emits a
record whose `data_len` is 5 (the clamped return count), not 0; the payload
is the zero-filled buffer the failed `bpf_probe_read` leaves behind.  The C
code never checks the helper's return value, so the captured length is not
truncated to zero. -/
theorem claim_C3_cex :
    memNone.bytes 500 5 = none ∧
    (process_SSL_data memNone 11 5 9 .kSSLWrite 500 3 comm0).map
        (fun e => (e.data_len, e.data)) = some (5, [0, 0, 0, 0, 0]) :=
  ⟨rfl, rfl⟩

/-- Claim C3 as amended: when the payload copy from the traced process fails,
the record is still emitted with `data_len = min return_count
MAX_DATA_SIZE_OPENSSL` (not zero), and its payload is the zero-filled
buffer of that length that the failed `bpf_probe_read` leaves in the
destination. -/
theorem claim_C3 (mem : Memory) (ts retval id : Nat) (ty : ssl_data_event_type)
    (buf fd : Nat) (c : String) (h : 0 ≤ toS32 retval)
    (hfail : mem.bytes buf (clamp_data_len (toS32 retval)).toNat = none) :
    ∃ ev, process_SSL_data mem ts retval id ty buf fd c = some ev ∧
      ev.data_len = min (toS32 retval) MAX_DATA_SIZE_OPENSSL ∧
      ev.data = List.replicate (clamp_data_len (toS32 retval)).toNat 0 := by
  refine ⟨_, process_SSL_data_eq_some mem ts retval id ty buf fd c h,
          clamp_data_len_eq_min _ h, ?_⟩
  show bpf_probe_read_bytes mem (clamp_data_len (toS32 retval)).toNat buf = _
  unfold bpf_probe_read_bytes
  rw [hfail]
  rfl

/-- Witness for the amended C3: failing memory, return value 5. -/
theorem claim_C3_witness :
    ∃ ev, process_SSL_data memNone 11 5 9 .kSSLWrite 500 3 comm0 = some ev ∧
      ev.data_len = min (toS32 5) MAX_DATA_SIZE_OPENSSL ∧
      ev.data = List.replicate (clamp_data_len (toS32 5)).toNat 0 :=
  claim_C3 memNone 11 5 9 .kSSLWrite 500 3 comm0 (by decide) rfl

/-- Claim C10: a null destination-address pointer (`saddr = 0`) makes
`probe_connect` emit nothing; the statement holds for every foreign memory,
so the result does not depend on any foreign-memory read. -/
theorem claim_C10 (target_pid : Nat) (mem : Memory) (ts k fd : Nat) (c : String) :
    probe_connect target_pid mem ts k fd 0 c = [] := by
  unfold probe_connect
  by_cases hf : target_pid ≠ 0 ∧ target_pid ≠ k >>> 32
  · rw [if_pos hf]
  · rw [if_neg hf, if_pos rfl]

/-- An NSPR-path context map holding one pending buffer pointer for thread
key 5. -/
def nm0 : nspr.NsprArgsMap := fun k => if k = 5 then some 500 else none

/-- Unfolding of `nspr.probe_ret_SSL_read` when the pid filter passes. -/
lemma nspr_probe_ret_SSL_read_pass (target_pid : Nat) (mem : Memory)
    (ts k retval : Nat) (c : String) (m : nspr.NsprArgsMap)
    (h : target_pid = 0 ∨ target_pid = k >>> 32) :
    nspr.probe_ret_SSL_read target_pid mem ts k retval c m =
      ⟨fun k2 => if k2 = k then none else m k2,
       match m k with
       | some buf => (nspr.process_SSL_data mem ts retval k .kSSLRead buf c).toList
       | none => []⟩ := by
  unfold nspr.probe_ret_SSL_read
  rw [if_neg (pid_filter_pass h)]

/-- Claim C4: when the entry-time foreign reads of the connection object or of
its write-path transport sub-object fail, the context stored by
`probe_entry_SSL_write` carries the `invalidFD` sentinel as descriptor, the
interception completes (the context is stored), and a subsequent successful
return emits exactly one record whose `fd` equals `invalidFD`. -/
theorem claim_C4 (target_pid : Nat) (mem : Memory) (k ssl buf : Nat) (m : SslArgsMap)
    (hpass : target_pid = 0 ∨ target_pid = k >>> 32)
    (hfail : (mem.sslObjs ssl = none ∧ mem.bioObjs 0 = none) ∨
             (∃ s, mem.sslObjs ssl = some s ∧ mem.bioObjs s.wbio = none)) :
    (probe_entry_SSL_write target_pid mem k ssl buf m) k = some ⟨invalidFD, buf⟩ ∧
    (∀ ts retval c, 0 ≤ toS32 retval →
      (probe_ret_SSL_write target_pid mem ts k retval c
          (probe_entry_SSL_write target_pid mem k ssl buf m)).events =
        [{ type := .kSSLWrite, timestamp_ns := ts, pid := k >>> 32,
           tid := k &&& 0xffffffff,
           data := bpf_probe_read_bytes mem (clamp_data_len (toS32 retval)).toNat buf,
           data_len := clamp_data_len (toS32 retval), comm := c, fd := invalidFD }]) := by
  have hfd : toU32 (probe_read_bio mem (probe_read_ssl_st mem ssl).wbio).num = invalidFD := by
    rcases hfail with ⟨h1, h2⟩ | ⟨s, h1, h2⟩
    · unfold probe_read_ssl_st probe_read_bio
      rw [h1]
      show toU32 ((mem.bioObjs ssl_st.zero.wbio).getD BIO.zero).num = invalidFD
      rw [show ssl_st.zero.wbio = 0 from rfl, h2]
      rfl
    · unfold probe_read_ssl_st probe_read_bio
      rw [h1]
      show toU32 ((mem.bioObjs s.wbio).getD BIO.zero).num = invalidFD
      rw [h2]
      rfl
  have hmap : (probe_entry_SSL_write target_pid mem k ssl buf m) k = some ⟨invalidFD, buf⟩ := by
    rw [probe_entry_SSL_write_pass target_pid mem k ssl buf m hpass, hfd]
    unfold bpf_map_update_elem
    rw [if_pos rfl]
  refine ⟨hmap, fun ts retval c hr => ?_⟩
  rw [probe_ret_SSL_write_pass target_pid mem ts k retval c _ hpass]
  simp only [hmap]
  rw [process_SSL_data_eq_some mem ts retval k .kSSLWrite buf invalidFD c hr]
  rfl

/-- Witness for C4: memory in which the SSL-object read at address 999 fails
(and the null transport pointer is unreadable), thread key 5. -/
theorem claim_C4_witness :
    (probe_entry_SSL_write 0 memNone 5 999 500 m0) 5 = some ⟨invalidFD, 500⟩ ∧
    (∀ ts retval c, 0 ≤ toS32 retval →
      (probe_ret_SSL_write 0 memNone ts 5 retval c
          (probe_entry_SSL_write 0 memNone 5 999 500 m0)).events =
        [{ type := .kSSLWrite, timestamp_ns := ts, pid := 5 >>> 32,
           tid := 5 &&& 0xffffffff,
           data := bpf_probe_read_bytes memNone (clamp_data_len (toS32 retval)).toNat 500,
           data_len := clamp_data_len (toS32 retval), comm := c, fd := invalidFD }]) :=
  claim_C4 0 memNone 5 999 500 m0 (Or.inl rfl) (Or.inl ⟨rfl, rfl⟩)

/-- Claim C5: the descriptor resolved at entry follows the direction-selected
transport sub-object: the write probe resolves `ssl->wbio->num` and the read
probe resolves `ssl->rbio->num`; on a well-formed object whose descriptor is
`D` (a 32-bit non-negative value), the stored context's descriptor is `D`. -/
theorem claim_C5 (target_pid : Nat) (mem : Memory) (k ssl buf : Nat) (m : SslArgsMap)
    (s : ssl_st) (bw br : BIO)
    (hpass : target_pid = 0 ∨ target_pid = k >>> 32)
    (hs : mem.sslObjs ssl = some s)
    (hw : mem.bioObjs s.wbio = some bw) (hr : mem.bioObjs s.rbio = some br)
    (hw0 : 0 ≤ bw.num) (hw32 : bw.num < 2 ^ 32)
    (hr0 : 0 ≤ br.num) (hr32 : br.num < 2 ^ 32) :
    (probe_entry_SSL_write target_pid mem k ssl buf m) k = some ⟨bw.num.toNat, buf⟩ ∧
    (probe_entry_SSL_read target_pid mem k ssl buf m) k = some ⟨br.num.toNat, buf⟩ := by
  have hu : ∀ i : Int, 0 ≤ i → i < 2 ^ 32 → toU32 i = i.toNat := by
    intro i h0 h32
    unfold toU32
    rw [Int.emod_eq_of_lt h0 h32]
  constructor
  · rw [probe_entry_SSL_write_pass target_pid mem k ssl buf m hpass]
    unfold probe_read_ssl_st probe_read_bio
    simp only [hs, Option.getD_some, hw]
    rw [hu bw.num hw0 hw32]
    unfold bpf_map_update_elem
    rw [if_pos rfl]
  · rw [probe_entry_SSL_read_pass target_pid mem k ssl buf m hpass]
    unfold probe_read_ssl_st probe_read_bio
    simp only [hs, Option.getD_some, hr]
    rw [hu br.num hr0 hr32]
    unfold bpf_map_update_elem
    rw [if_pos rfl]

/-- Witness for C5: the object at address 100 in `memW`, whose read-path BIO
holds descriptor 7 and whose write-path BIO holds descriptor 8. -/
theorem claim_C5_witness :
    (probe_entry_SSL_write 0 memW 5 100 500 m0) 5 = some ⟨(8 : Int).toNat, 500⟩ ∧
    (probe_entry_SSL_read 0 memW 5 100 500 m0) 5 = some ⟨(7 : Int).toNat, 500⟩ :=
  claim_C5 0 memW 5 100 500 m0 ⟨771, 10, 200, 300⟩ ⟨0, 0, 0, 0, 1, 0, 0, 0, 8⟩
    ⟨0, 0, 0, 0, 1, 0, 0, 0, 7⟩ (Or.inl rfl) rfl rfl rfl
    (by decide) (by decide) (by decide) (by decide)

/-- Claim C6: with a readable destination address, `probe_connect` emits a
connection record exactly when the address family is `AF_INET`, and that
record's `sa_data` equals the raw bytes supplied; a non-matching family emits
nothing.  Emission is not gated on a return value: the probe runs at call
entry and no return value occurs in its definition. -/
theorem claim_C6 (target_pid : Nat) (mem : Memory) (ts k fd saddr : Nat)
    (c : String) (s : sockaddr)
    (hpass : target_pid = 0 ∨ target_pid = k >>> 32)
    (hnz : saddr ≠ 0) (hs : mem.sockaddrs saddr = some s) :
    (probe_connect target_pid mem ts k fd saddr c ≠ [] ↔ s.sa_family = AF_INET) ∧
    (s.sa_family = AF_INET →
      probe_connect target_pid mem ts k fd saddr c =
        [{ timestamp_ns := ts, pid := k >>> 32, tid := k &&& 0xffffffff,
           fd := fd, sa_data := s.sa_data, comm := c }]) := by
  have hp := pid_filter_pass hpass
  have haf : ((mem.sockaddrs saddr).map sockaddr.sa_family).getD 0 = s.sa_family := by
    rw [hs]
    rfl
  have hsd : ((mem.sockaddrs saddr).map sockaddr.sa_data).getD
      (List.replicate SA_DATA_LEN 0) = s.sa_data := by
    rw [hs]
    rfl
  simp only [probe_connect]
  rw [if_neg hp, if_neg hnz, haf, hsd]
  by_cases hf : s.sa_family = AF_INET
  · rw [if_neg (fun hc => hc hf)]
    exact ⟨⟨fun _ => hf, fun _ => by simp⟩, fun _ => rfl⟩
  · rw [if_pos hf]
    exact ⟨⟨fun hne => absurd rfl hne, fun hfam => absurd hfam hf⟩,
           fun hfam => absurd hfam hf⟩

/-- Witness for C6: the `AF_INET` sockaddr at address 400 in `memW`. -/
theorem claim_C6_witness :
    (probe_connect 0 memW 11 5 3 400 comm0 ≠ [] ↔
      (sockaddr.mk AF_INET [1, 2, 3, 4, 5, 6, 7, 8, 9, 10, 11, 12, 13, 14]).sa_family
        = AF_INET) ∧
    ((sockaddr.mk AF_INET [1, 2, 3, 4, 5, 6, 7, 8, 9, 10, 11, 12, 13, 14]).sa_family
        = AF_INET →
      probe_connect 0 memW 11 5 3 400 comm0 =
        [{ timestamp_ns := 11, pid := 5 >>> 32, tid := 5 &&& 0xffffffff, fd := 3,
           sa_data := (sockaddr.mk AF_INET
             [1, 2, 3, 4, 5, 6, 7, 8, 9, 10, 11, 12, 13, 14]).sa_data,
           comm := comm0 }]) :=
  claim_C6 0 memW 11 5 3 400 comm0 ⟨AF_INET, [1, 2, 3, 4, 5, 6, 7, 8, 9, 10, 11, 12, 13, 14]⟩
    (Or.inl rfl) (by decide) rfl

/-- Claim C7: every interception point applies the same pid filter: with the
sentinel 0 the probe proceeds for every process, and with a non-zero filter a
non-matching pid leaves the context map unchanged and emits nothing, while a
matching pid behaves exactly as the all-processes configuration.  Stated as
one unconditional equation per probe (OpenSSL entry, return and connect
probes, and the NSPR write entry probe). -/
theorem claim_C7 (target_pid : Nat) (mem : Memory)
    (ts k ssl buf fd saddr retval : Nat) (c : String) (m : SslArgsMap)
    (nm : nspr.NsprArgsMap) :
    probe_entry_SSL_write target_pid mem k ssl buf m =
      (if target_pid ≠ 0 ∧ target_pid ≠ k >>> 32 then m
       else probe_entry_SSL_write 0 mem k ssl buf m) ∧
    probe_entry_SSL_read target_pid mem k ssl buf m =
      (if target_pid ≠ 0 ∧ target_pid ≠ k >>> 32 then m
       else probe_entry_SSL_read 0 mem k ssl buf m) ∧
    probe_ret_SSL_write target_pid mem ts k retval c m =
      (if target_pid ≠ 0 ∧ target_pid ≠ k >>> 32 then ⟨m, []⟩
       else probe_ret_SSL_write 0 mem ts k retval c m) ∧
    probe_ret_SSL_read target_pid mem ts k retval c m =
      (if target_pid ≠ 0 ∧ target_pid ≠ k >>> 32 then ⟨m, []⟩
       else probe_ret_SSL_read 0 mem ts k retval c m) ∧
    probe_connect target_pid mem ts k fd saddr c =
      (if target_pid ≠ 0 ∧ target_pid ≠ k >>> 32 then []
       else probe_connect 0 mem ts k fd saddr c) ∧
    nspr.probe_entry_SSL_write target_pid k buf nm =
      (if target_pid ≠ 0 ∧ target_pid ≠ k >>> 32 then nm
       else nspr.probe_entry_SSL_write 0 k buf nm) := by
  have hp0 : ¬((0 : Nat) ≠ 0 ∧ (0 : Nat) ≠ k >>> 32) := by simp
  by_cases hmiss : target_pid ≠ 0 ∧ target_pid ≠ k >>> 32
  · refine ⟨?_, ?_, ?_, ?_, ?_, ?_⟩ <;>
      · simp only [probe_entry_SSL_write, probe_entry_SSL_read, probe_ret_SSL_write,
          probe_ret_SSL_read, probe_connect, nspr.probe_entry_SSL_write]
        rw [if_pos hmiss, if_pos hmiss]
  · refine ⟨?_, ?_, ?_, ?_, ?_, ?_⟩ <;>
      · simp only [probe_entry_SSL_write, probe_entry_SSL_read, probe_ret_SSL_write,
          probe_ret_SSL_read, probe_connect, nspr.probe_entry_SSL_write]
        rw [if_neg hmiss, if_neg hmiss, if_neg hp0]

/-- Claim C8: the context store's put overwrites unconditionally (last entry
wins for a repeated key); every return interception that passes the filter
removes the entry for its key whether or not a record was emitted; and a
return with no stored entry emits nothing.  Stated for the OpenSSL write
return probe and the NSPR read return probe. -/
theorem claim_C8 (target_pid : Nat) (mem : Memory) (ts k retval : Nat) (c : String)
    (m : SslArgsMap) (nm : nspr.NsprArgsMap)
    (hpass : target_pid = 0 ∨ target_pid = k >>> 32) :
    (∀ v1 v2 : active_ssl_buf,
        bpf_map_update_elem (bpf_map_update_elem m k v1) k v2 =
          bpf_map_update_elem m k v2) ∧
    ((probe_ret_SSL_write target_pid mem ts k retval c m).map k = none) ∧
    ((nspr.probe_ret_SSL_read target_pid mem ts k retval c nm).map k = none) ∧
    (m k = none → (probe_ret_SSL_write target_pid mem ts k retval c m).events = []) ∧
    (nm k = none → (nspr.probe_ret_SSL_read target_pid mem ts k retval c nm).events = []) := by
  refine ⟨?_, ?_, ?_, ?_, ?_⟩
  · intro v1 v2
    funext k2
    unfold bpf_map_update_elem
    by_cases hk : k2 = k
    · rw [if_pos hk, if_pos hk]
    · rw [if_neg hk, if_neg hk, if_neg hk]
  · rw [probe_ret_SSL_write_pass target_pid mem ts k retval c m hpass]
    show bpf_map_delete_elem m k k = none
    unfold bpf_map_delete_elem
    rw [if_pos rfl]
  · rw [nspr_probe_ret_SSL_read_pass target_pid mem ts k retval c nm hpass]
    show (if k = k then none else nm k) = none
    rw [if_pos rfl]
  · intro hmk
    rw [probe_ret_SSL_write_pass target_pid mem ts k retval c m hpass]
    simp only [hmk]
  · intro hmk
    rw [nspr_probe_ret_SSL_read_pass target_pid mem ts k retval c nm hpass]
    simp only [hmk]

/-- Witness for C8: thread key 5 with the concrete maps `m0` and `nm0`. -/
theorem claim_C8_witness :
    (∀ v1 v2 : active_ssl_buf,
        bpf_map_update_elem (bpf_map_update_elem m0 5 v1) 5 v2 =
          bpf_map_update_elem m0 5 v2) ∧
    ((probe_ret_SSL_write 0 memW 11 5 7 comm0 m0).map 5 = none) ∧
    ((nspr.probe_ret_SSL_read 0 memW 11 5 7 comm0 nm0).map 5 = none) ∧
    (m0 5 = none → (probe_ret_SSL_write 0 memW 11 5 7 comm0 m0).events = []) ∧
    (nm0 5 = none → (nspr.probe_ret_SSL_read 0 memW 11 5 7 comm0 nm0).events = []) :=
  claim_C8 0 memW 11 5 7 comm0 m0 nm0 (Or.inl rfl)

/-- Claim C9: interceptions are keyed per thread: a probe running for thread
key `k1` never touches the context stored for a different key `k2`, and every
record it emits carries the pid (high 32 bits) and tid (low 32 bits) of the
key it ran under. -/
theorem claim_C9 (target_pid : Nat) (mem : Memory) (ts k1 k2 ssl buf retval : Nat)
    (c : String) (m : SslArgsMap) (hne : k1 ≠ k2) :
    ((probe_entry_SSL_write target_pid mem k1 ssl buf m) k2 = m k2) ∧
    ((probe_ret_SSL_write target_pid mem ts k1 retval c m).map k2 = m k2) ∧
    ((probe_ret_SSL_read target_pid mem ts k1 retval c m).map k2 = m k2) ∧
    (∀ ev ∈ (probe_ret_SSL_write target_pid mem ts k1 retval c m).events,
        ev.pid = k1 >>> 32 ∧ ev.tid = k1 &&& 0xffffffff) ∧
    (∀ ev ∈ (probe_ret_SSL_read target_pid mem ts k1 retval c m).events,
        ev.pid = k1 >>> 32 ∧ ev.tid = k1 &&& 0xffffffff) := by
  refine ⟨?_, ?_, ?_, ?_, ?_⟩
  · by_cases hmiss : target_pid ≠ 0 ∧ target_pid ≠ k1 >>> 32
    · unfold probe_entry_SSL_write
      rw [if_pos hmiss]
    · rw [probe_entry_SSL_write_pass target_pid mem k1 ssl buf m (by tauto)]
      unfold bpf_map_update_elem
      rw [if_neg (Ne.symm hne)]
  · by_cases hmiss : target_pid ≠ 0 ∧ target_pid ≠ k1 >>> 32
    · unfold probe_ret_SSL_write
      rw [if_pos hmiss]
    · rw [probe_ret_SSL_write_pass target_pid mem ts k1 retval c m (by tauto)]
      show bpf_map_delete_elem m k1 k2 = m k2
      unfold bpf_map_delete_elem
      rw [if_neg (Ne.symm hne)]
  · by_cases hmiss : target_pid ≠ 0 ∧ target_pid ≠ k1 >>> 32
    · unfold probe_ret_SSL_read
      rw [if_pos hmiss]
    · rw [probe_ret_SSL_read_pass target_pid mem ts k1 retval c m (by tauto)]
      show bpf_map_delete_elem m k1 k2 = m k2
      unfold bpf_map_delete_elem
      rw [if_neg (Ne.symm hne)]
  · intro ev hev
    by_cases hmiss : target_pid ≠ 0 ∧ target_pid ≠ k1 >>> 32
    · unfold probe_ret_SSL_write at hev
      rw [if_pos hmiss] at hev
      simp at hev
    · rw [probe_ret_SSL_write_pass target_pid mem ts k1 retval c m (by tauto)] at hev
      rcases hm : m k1 with _ | a
      · simp only [hm] at hev
        simp at hev
      · simp only [hm] at hev
        by_cases hr2 : 0 ≤ toS32 retval
        · rw [process_SSL_data_eq_some mem ts retval k1 .kSSLWrite a.buf a.fd c hr2] at hev
          simp at hev
          subst hev
          exact ⟨rfl, rfl⟩
        · rw [process_SSL_data_eq_none mem ts retval k1 .kSSLWrite a.buf a.fd c (by omega)] at hev
          simp at hev
  · intro ev hev
    by_cases hmiss : target_pid ≠ 0 ∧ target_pid ≠ k1 >>> 32
    · unfold probe_ret_SSL_read at hev
      rw [if_pos hmiss] at hev
      simp at hev
    · rw [probe_ret_SSL_read_pass target_pid mem ts k1 retval c m (by tauto)] at hev
      rcases hm : m k1 with _ | a
      · simp only [hm] at hev
        simp at hev
      · simp only [hm] at hev
        by_cases hr2 : 0 ≤ toS32 retval
        · rw [process_SSL_data_eq_some mem ts retval k1 .kSSLRead a.buf a.fd c hr2] at hev
          simp at hev
          subst hev
          exact ⟨rfl, rfl⟩
        · rw [process_SSL_data_eq_none mem ts retval k1 .kSSLRead a.buf a.fd c (by omega)] at hev
          simp at hev

/-- Witness for C9: thread keys 5 and 6 with the concrete map `m0`. -/
theorem claim_C9_witness :
    ((probe_entry_SSL_write 0 memW 5 100 500 m0) 6 = m0 6) ∧
    ((probe_ret_SSL_write 0 memW 11 5 7 comm0 m0).map 6 = m0 6) ∧
    ((probe_ret_SSL_read 0 memW 11 5 7 comm0 m0).map 6 = m0 6) ∧
    (∀ ev ∈ (probe_ret_SSL_write 0 memW 11 5 7 comm0 m0).events,
        ev.pid = 5 >>> 32 ∧ ev.tid = 5 &&& 0xffffffff) ∧
    (∀ ev ∈ (probe_ret_SSL_read 0 memW 11 5 7 comm0 m0).events,
        ev.pid = 5 >>> 32 ∧ ev.tid = 5 &&& 0xffffffff) :=
  claim_C9 0 memW 11 5 6 100 500 7 comm0 m0 (by decide)

end ECapture
